import Mathlib

/-!
Verification of the WLOps data-analyzer service (python-services/data-analyzer-service).

Shallow embedding of the pipeline agents (optimization, verification, cleaning),
the Redis-backed task manager, the Celery task progress updates, and the
synchronous HTTP endpoint.  External collaborators (the LLM chat client, the
JSON parser applied to model output, the vector-store search, and the PII text
redactor) are modelled as oracle parameters, following the spec's thin
contracts for them.  Records are association lists of string keys to
JSON-compatible values; Python dict update/insert semantics are embedded
explicitly.
-/

namespace DataAnalyzer

/-- JSON-compatible value stored in a record field.  Nested arrays/objects are
not consulted by any of the embedded operations, so the embedding carries the
scalar forms. -/
inductive JVal where
  | str (s : String)
  | bool (b : Bool)
  | num (q : ℚ)
  | null
  deriving DecidableEq, Repr

/-- A record (one dataset sample): a Python dict, embedded as an association
list in insertion order with unique keys. -/
abbrev Record := List (String × JVal)

/-- Python `d.get(k)`: the value at key `k`, if present. -/
def dictLookup (r : Record) (k : String) : Option JVal :=
  (r.find? (fun p => p.1 = k)).map (fun p => p.2)

/-- Python `d.get(k, default)`. -/
def dictGetD (r : Record) (k : String) (d : JVal) : JVal :=
  (dictLookup r k).getD d

/-- Python `d.get(k1, d.get(k2, default))`, the two-key fallback used for
question/answer extraction. -/
def dictGet2D (r : Record) (k₁ k₂ : String) (d : JVal) : JVal :=
  (dictLookup r k₁).getD ((dictLookup r k₂).getD d)

/-- Python `d[k] = v` (and the `{**d, k: v}` spread): update the value in
place when the key exists, else append the new key. -/
def dictSet (r : Record) (k : String) (v : JVal) : Record :=
  if r.any (fun p => p.1 = k) then
    r.map (fun p => if p.1 = k then (k, v) else p)
  else
    r ++ [(k, v)]

/-- Python truthiness of a JSON value (`if value:`). -/
def truthy : JVal → Bool
  | .str s => s ≠ ""
  | .bool b => b
  | .num q => q ≠ 0
  | .null => false

/-- Python truthiness of `d.get(k)` where a missing key yields `None`. -/
def truthyOpt : Option JVal → Bool
  | none => false
  | some v => truthy v

/-- Python numeric coercion used by `x >= threshold`: numbers compare as
themselves and booleans as 0/1 (bool is an int subclass); any other operand
raises `TypeError`. -/
def numericValue : JVal → Option ℚ
  | .num q => some q
  | .bool b => some (if b then 1 else 0)
  | _ => none

/-- Optimization mode (`Literal["auto", "guided"]`). -/
inductive Mode where
  | auto
  | guided
  deriving DecidableEq, Repr

/-- The data flowing into each external-model prompt template; the LLM client
is an oracle over these. -/
inductive Prompt where
  | addCot (question answer : JVal)
  | optimizeGuided (instructions question answer : JVal)
  | generateSimilar (seedQuestions : List JVal) (count : ℕ)
  | generateGuided (instructions : JVal) (seedQuestions : List JVal) (count : ℕ)
  | verify (context : List String) (question reasoning answer : JVal)

/-- The external LLM chat call: returns the response text, or raises. -/
abbrev Chat := Prompt → Except String String

/-- Python `json.loads` applied to model output, expected to give a JSON
object: `none` covers both invalid JSON and a non-object result (either makes
the enclosing `try` fall into its `except` branch). -/
abbrev Parse := String → Option Record

/-- Python `json.loads` applied to model output, expected to give a JSON array
of objects; `none` covers invalid JSON and non-array results. -/
abbrev ParseArr := String → Option (List Record)

/-! ## OptimizationAgent (agents/optimization_agent.py) -/

/-- Python `key.lower()` as applied to record keys, character by character
(ASCII case folding suffices for the comparison against "think"). -/
def lowerKey (s : String) : String := ⟨s.data.map Char.toLower⟩

/-- OptimizationAgent._check_has_think_field: scan the first min(10, n)
records for any key equal to "think" ignoring case. -/
def checkHasThinkField (dataset : List Record) : Bool :=
  (dataset.take (min 10 dataset.length)).any
    (fun sample => sample.any (fun p => lowerKey p.1 = "think"))

/-- OptimizationAgent._add_cot_reasoning: one chat call; on a parsed JSON
object, merge reasoning and answer into the sample; on parse failure, attach
the raw response as the reasoning (the inner `except` branch). -/
def addCotReasoning (chat : Chat) (parse : Parse) (sample : Record) :
    Except String Record :=
  let question := dictGet2D sample "question" "instruction" (.str "")
  let answer := dictGet2D sample "answer" "output" (.str "")
  match chat (.addCot question answer) with
  | .error e => .error e
  | .ok response =>
    match parse response with
    | some result =>
        .ok (dictSet (dictSet sample "reasoning" (dictGetD result "reasoning" (.str "")))
              "answer" (dictGetD result "answer" answer))
    | none => .ok (dictSet sample "reasoning" (.str response))

/-- OptimizationAgent._optimize_with_guidance.  A `none` guidance reproduces
Python's `None.get` AttributeError, which the caller's `except` catches. -/
def optimizeWithGuidance (chat : Chat) (parse : Parse) (sample : Record)
    (guidance : Option Record) : Except String Record :=
  match guidance with
  | none => .error "AttributeError"
  | some g =>
    let instructions := dictGetD g "optimization_instructions" (.str "")
    let question := dictGet2D sample "question" "instruction" (.str "")
    let answer := dictGet2D sample "answer" "output" (.str "")
    match chat (.optimizeGuided instructions question answer) with
    | .error e => .error e
    | .ok response =>
      match parse response with
      | some result =>
          .ok (dictSet (dictSet (dictSet sample
                "question" (dictGetD result "question" question))
                "reasoning" (dictGetD result "reasoning" (.str "")))
                "answer" (dictGetD result "answer" answer))
      | none => .ok (dictSet sample "reasoning" (.str response))

/-- One low-quality item from the diagnostic report
(`{"index": idx, "sample": record, "issue": str}`). -/
structure LQItem where
  index : ℕ
  sample : Record
  issue : String
  deriving DecidableEq, Repr

/-- Result shape of OptimizationAgent.optimize_samples. -/
structure OptimizeResult where
  samples : List Record
  count : ℕ
  highQualityKept : ℕ
  deriving DecidableEq, Repr

/-- High-quality records preserved verbatim:
`set(range(len(dataset))) - {lq["index"]}`, iterated ascending (CPython
iterates a set of small non-negative ints in ascending order here). -/
def keptRecords (dataset : List Record) (lowQuality : List LQItem) : List Record :=
  ((List.range dataset.length).filter
    (fun i => ¬ (lowQuality.map (fun lq => lq.index)).contains i)).filterMap
    (fun i => dataset[i]?)

/-- Number of high-quality indices kept. -/
def highQualityCount (dataset : List Record) (lowQuality : List LQItem) : ℕ :=
  ((List.range dataset.length).filter
    (fun i => ¬ (lowQuality.map (fun lq => lq.index)).contains i)).length

/-- OptimizationAgent.optimize_samples: skip entirely when no think field is
detected; otherwise keep high-quality records and rewrite each low-quality
record, marking successes `_optimized = true` and keeping the original on an
exception. -/
def optimizeSamples (chat : Chat) (parse : Parse) (dataset : List Record)
    (lowQualitySamples : List LQItem) (mode : Mode) (guidance : Option Record) :
    OptimizeResult :=
  if checkHasThinkField dataset = false then
    { samples := dataset, count := 0, highQualityKept := dataset.length }
  else
    let step : List Record × ℕ → LQItem → List Record × ℕ := fun acc lq =>
      match (if mode = .auto then addCotReasoning chat parse lq.sample
             else optimizeWithGuidance chat parse lq.sample guidance) with
      | .ok optimized => (acc.1 ++ [dictSet optimized "_optimized" (.bool true)], acc.2 + 1)
      | .error _ => (acc.1 ++ [lq.sample], acc.2)
    let folded := lowQualitySamples.foldl step (keptRecords dataset lowQualitySamples, 0)
    { samples := folded.1, count := folded.2,
      highQualityKept := highQualityCount dataset lowQualitySamples }

/-- One sparse cluster from the diagnostic report; the fields read by
generate_samples. -/
structure Cluster where
  clusterId : ℕ
  size : ℕ
  sampleQuestions : List JVal
  deriving DecidableEq, Repr

/-- Result shape of OptimizationAgent.generate_samples. -/
structure GenerateResult where
  samples : List Record
  count : ℕ
  deriving DecidableEq, Repr

/-- OptimizationAgent._generate_similar_samples: one chat call; the parsed
array is truncated to `count` (`samples[:count]`); parse failure contributes
an empty list. -/
def generateSimilarSamples (chat : Chat) (parseArr : ParseArr)
    (seedQuestions : List JVal) (count : ℕ) : Except String (List Record) :=
  match chat (.generateSimilar seedQuestions count) with
  | .error e => .error e
  | .ok response =>
    match parseArr response with
    | some samples => .ok (samples.take count)
    | none => .ok []

/-- OptimizationAgent._generate_with_guidance (same shape as the auto path,
with the guidance-specialised prompt). -/
def generateWithGuidance (chat : Chat) (parseArr : ParseArr) (cluster : Cluster)
    (guidance : Option Record) (count : ℕ) : Except String (List Record) :=
  match guidance with
  | none => .error "AttributeError"
  | some g =>
    let instructions := dictGetD g "generation_instructions" (.str "")
    match chat (.generateGuided instructions cluster.sampleQuestions count) with
    | .error e => .error e
    | .ok response =>
      match parseArr response with
      | some samples => .ok (samples.take count)
      | none => .ok []

/-- OptimizationAgent.generate_samples: per cluster, request
`target_count = max(5, 50 - cluster["size"])` new records, mark each
`_generated = true`; an exception loses that cluster's contribution.
Natural-number truncated subtraction agrees with Python's `max(5, 50 - size)`
over integers since the floor 5 dominates all negative differences. -/
def generateSamples (chat : Chat) (parseArr : ParseArr)
    (sparseClusters : List Cluster) (mode : Mode) (guidance : Option Record) :
    GenerateResult :=
  let step : List Record → Cluster → List Record := fun acc cluster =>
    let targetCount := max 5 (50 - cluster.size)
    match (if mode = .auto then
             generateSimilarSamples chat parseArr cluster.sampleQuestions targetCount
           else
             generateWithGuidance chat parseArr cluster guidance targetCount) with
    | .ok newSamples =>
        acc ++ newSamples.map (fun s => dictSet s "_generated" (.bool true))
    | .error _ => acc
  let generated := sparseClusters.foldl step []
  { samples := generated, count := generated.length }

/-! ## VerificationAgent (agents/verification_agent.py) -/

/-- RAG verification configuration (config.py defaults:
RAG_RETRIEVAL_TOP_K = 5, RAG_CONFIDENCE_THRESHOLD = 0.8,
RAG_ENABLE_SELF_CORRECTION = true). -/
structure VerifyConfig where
  topK : ℕ
  confidenceThreshold : ℚ
  enableSelfCorrection : Bool
  deriving DecidableEq, Repr

/-- Default RAG verification configuration from config.py. -/
def defaultVerifyConfig : VerifyConfig :=
  { topK := 5, confidenceThreshold := 8/10, enableSelfCorrection := true }

/-- Knowledge-base retrieval oracle: the texts of the documents returned by
`knowledge_base.search(query, top_k)`. -/
abbrev Search := JVal → ℕ → List String

/-- Outcome of VerificationAgent._verify_single. -/
inductive VerifyOutcome where
  | passed
  | corrected (correctedSample : Record)
  | rejected
  deriving DecidableEq, Repr

/-- VerificationAgent._verify_single: empty retrieval passes by default;
otherwise one chat call; a parsed verdict decides passed / corrected /
rejected; a parse failure (or the TypeError from comparing a non-numeric
confidence, caught by the same `except`) passes by default.  The comparison
is only reached when `is_correct` is truthy, matching Python's short-circuit
`if is_correct and confidence >= threshold`. -/
def verifySingle (search : Search) (chat : Chat) (parse : Parse)
    (cfg : VerifyConfig) (sample : Record) : Except String VerifyOutcome :=
  let question := dictGet2D sample "question" "instruction" (.str "")
  let answer := dictGet2D sample "answer" "output" (.str "")
  let reasoning := dictGetD sample "reasoning" (.str "")
  let retrievedDocs := search question cfg.topK
  if retrievedDocs.isEmpty then .ok .passed
  else
    match chat (.verify retrievedDocs question reasoning answer) with
    | .error e => .error e
    | .ok response =>
      match parse response with
      | none => .ok .passed
      | some verification =>
        let isCorrect := dictGetD verification "is_correct" (.bool false)
        let confidence := dictGetD verification "confidence" (.num 0)
        let correctOrElse : VerifyOutcome :=
          if cfg.enableSelfCorrection ∧
              truthyOpt (dictLookup verification "corrected_answer") then
            .corrected (dictSet (dictSet (dictSet sample
              "answer" (dictGetD verification "corrected_answer" answer))
              "reasoning" (dictGetD verification "corrected_reasoning" reasoning))
              "_corrected" (.bool true))
          else .rejected
        if truthy isCorrect then
          match numericValue confidence with
          | some c => if cfg.confidenceThreshold ≤ c then .ok .passed else .ok correctOrElse
          | none => .ok .passed
        else .ok correctOrElse

/-- Per-batch verification statistics. -/
structure VerifyStats where
  total : ℕ
  passed : ℕ
  corrected : ℕ
  rejected : ℕ
  passRate : ℚ
  correctionRate : ℚ
  rejectionRate : ℚ
  deriving DecidableEq, Repr

/-- Result shape of VerificationAgent.verify_batch. -/
structure VerifyBatchResult where
  verifiedSamples : List Record
  passed : List Record
  corrected : List Record
  rejected : List Record
  stats : VerifyStats
  deriving DecidableEq, Repr

/-- Partition of a verification batch into the passed / corrected / rejected
lists; an exception from a single verification rejects that sample by
default. -/
def verifyPartition (search : Search) (chat : Chat) (parse : Parse)
    (cfg : VerifyConfig) (samples : List Record) :
    List Record × List Record × List Record :=
  samples.foldl
    (fun acc sample =>
      match verifySingle search chat parse cfg sample with
      | .ok .passed => (acc.1 ++ [sample], acc.2.1, acc.2.2)
      | .ok (.corrected cs) => (acc.1, acc.2.1 ++ [cs], acc.2.2)
      | .ok .rejected => (acc.1, acc.2.1, acc.2.2 ++ [sample])
      | .error _ => (acc.1, acc.2.1, acc.2.2 ++ [sample]))
    ([], [], [])

/-- VerificationAgent.verify_batch: the forwarded `verified_samples` are
`passed + corrected`; rejected samples are counted only. -/
def verifyBatch (search : Search) (chat : Chat) (parse : Parse)
    (cfg : VerifyConfig) (samples : List Record) : VerifyBatchResult :=
  let p := verifyPartition search chat parse cfg samples
  { verifiedSamples := p.1 ++ p.2.1
    passed := p.1
    corrected := p.2.1
    rejected := p.2.2
    stats :=
      { total := samples.length
        passed := p.1.length
        corrected := p.2.1.length
        rejected := p.2.2.length
        passRate := if samples ≠ [] then (p.1.length : ℚ) / samples.length else 0
        correctionRate := if samples ≠ [] then (p.2.1.length : ℚ) / samples.length else 0
        rejectionRate := if samples ≠ [] then (p.2.2.length : ℚ) / samples.length else 0 } }

/-! ## CleaningAgent (agents/cleaning_agent.py) -/

/-- The PII text redactor (CleaningAgent._clean_text over the presidio
engines), modelled per the spec as a pure function
`redact(text) → (text', changed?)`. -/
abbrev Redact := String → String × Bool

/-- CleaningAgent._clean_sample: pass every string-valued field through the
redactor, leave other values as they are, and report whether any field was
redacted.  The Python loop that rebuilds the dict key by key is embedded as a
map over the fields plus an any over the redaction flags. -/
def cleanSample (redact : Redact) (sample : Record) : Record × Bool :=
  (sample.map (fun p =>
      match p.2 with
      | .str t => (p.1, JVal.str (redact t).1)
      | v => (p.1, v)),
   sample.any (fun p =>
      match p.2 with
      | .str t => (redact t).2
      | _ => false))

/-- Result shape of CleaningAgent.clean_dataset. -/
structure CleanResult where
  cleanedDataset : List Record
  cleanedCount : ℕ
  deriving DecidableEq, Repr

/-- CleaningAgent.clean_dataset: when the engines initialised, clean every
sample and count those on which a redaction occurred; otherwise pass the
dataset through unchanged. -/
def cleanDataset (enginesReady : Bool) (redact : Redact) (dataset : List Record) :
    CleanResult :=
  if enginesReady = false then
    { cleanedDataset := dataset, cleanedCount := 0 }
  else
    { cleanedDataset := dataset.map (fun s => (cleanSample redact s).1)
      cleanedCount := (dataset.filter (fun s => (cleanSample redact s).2)).length }

/-! ## TaskManager (task_manager.py)

Task records live in Redis under `task:{task_id}`; the store is embedded as a
partial map from task ids to task records.  Wall-clock timestamps
(`start_time`, `end_time`) and the opaque `statistics` / batch-result payloads
are not consulted by any claim and are left out of the record.  The generic
`update_task_status` primitive is embedded as a merge of explicitly listed
optional fields over an existing record (Redis `hset` on an unknown id would
create a fragmentary hash; every embedded caller updates an existing task). -/

/-- Task lifecycle status strings. -/
inductive TaskStatus where
  | pending
  | processing
  | completed
  | failed
  deriving DecidableEq, Repr

/-- The task record fields consulted by the claims. -/
structure TaskData where
  status : TaskStatus
  mode : Mode
  datasetSize : ℕ
  batchSize : ℕ
  totalBatches : ℕ
  completedBatches : ℕ
  progress : ℚ
  currentBatch : ℕ
  error : Option String
  deriving DecidableEq, Repr

/-- The task store: `task:{task_id}` hashes keyed by task id. -/
abbrev Store := String → Option TaskData

/-- Python `round(x, 2)` over exact rationals: round half to even at the
second decimal place. -/
def roundHalfEven (q : ℚ) : ℤ :=
  let f := ⌊q⌋
  let r := q - f
  if r < 1/2 then f
  else if 1/2 < r then f + 1
  else if f % 2 = 0 then f else f + 1

/-- Round a rational to two decimal places, half to even. -/
def round2 (q : ℚ) : ℚ := (roundHalfEven (q * 100) : ℚ) / 100

/-- TaskManager.create_task: build the fresh pending record with
`total_batches = ceil(dataset_size / batch_size)` and write it under
`task:{task_id}` (Redis `hset` writes every field, replacing any record
already stored under that id). -/
def createTask (store : Store) (taskId : String) (datasetSize : ℕ) (mode : Mode)
    (batchSize : ℕ) : Store × TaskData :=
  let totalBatches := (datasetSize + batchSize - 1) / batchSize
  let taskData : TaskData :=
    { status := .pending
      mode := mode
      datasetSize := datasetSize
      batchSize := batchSize
      totalBatches := totalBatches
      completedBatches := 0
      progress := 0
      currentBatch := 0
      error := none }
  (fun id => if id = taskId then some taskData else store id, taskData)

/-- The keyword fields a TaskManager.update_task_status call may merge in
alongside the status. -/
structure TaskUpdate where
  status : TaskStatus
  progress : Option ℚ := none
  completedBatches : Option ℕ := none
  totalBatches : Option ℕ := none
  currentBatch : Option ℕ := none
  error : Option String := none

/-- Merge an update into an existing task record (Redis `hset` of the listed
fields). -/
def applyUpdate (t : TaskData) (u : TaskUpdate) : TaskData :=
  { t with
    status := u.status
    progress := u.progress.getD t.progress
    completedBatches := u.completedBatches.getD t.completedBatches
    totalBatches := u.totalBatches.getD t.totalBatches
    currentBatch := u.currentBatch.getD t.currentBatch
    error := match u.error with | some e => some e | none => t.error }

/-- TaskManager.update_task_status over an existing task record. -/
def updateTaskStatus (store : Store) (taskId : String) (u : TaskUpdate) : Store :=
  fun id => if id = taskId then (store taskId).map (fun t => applyUpdate t u) else store id

/-- TaskManager.update_batch_progress: read the task, store the batch result
(an opaque payload, not modelled), then write
`completed_batches + 1`, `progress = round((completed+1)/total * 100, 2)`,
`status = "processing"` and the current batch index.  A missing task only
logs an error. -/
def updateBatchProgress (store : Store) (taskId : String) (batchIndex : ℕ) :
    Store :=
  match store taskId with
  | none => store
  | some task =>
    let completedBatches := task.completedBatches + 1
    let progress : ℚ := ((completedBatches : ℚ) / task.totalBatches) * 100
    updateTaskStatus store taskId
      { status := .processing
        progress := some (round2 progress)
        completedBatches := some completedBatches
        currentBatch := some batchIndex }

/-- TaskManager.complete_task: status completed, progress 100 (end time and
statistics written alongside are not consulted by the claims). -/
def completeTask (store : Store) (taskId : String) : Store :=
  updateTaskStatus store taskId { status := .completed, progress := some 100 }

/-- TaskManager.fail_task: status failed with the error recorded. -/
def failTask (store : Store) (taskId : String) (error : String) : Store :=
  updateTaskStatus store taskId { status := .failed, error := some error }

/-- Stores reachable through the task lifecycle operations (create, per-batch
progress update, completion, failure).  The raw update_task_status primitive
is the internal write these operations share; it is not itself a lifecycle
step. -/
inductive Reachable : Store → Prop where
  | empty : Reachable (fun _ => none)
  | create (store : Store) (taskId : String) (datasetSize : ℕ) (mode : Mode)
      (batchSize : ℕ) : Reachable store →
      Reachable (createTask store taskId datasetSize mode batchSize).1
  | batch (store : Store) (taskId : String) (batchIndex : ℕ) :
      Reachable store → Reachable (updateBatchProgress store taskId batchIndex)
  | complete (store : Store) (taskId : String) :
      Reachable store → Reachable (completeTask store taskId)
  | fail (store : Store) (taskId : String) (error : String) :
      Reachable store → Reachable (failTask store taskId error)

/-! ## Progress writes of the Celery task (tasks.py optimize_dataset_async)

The asynchronous task drives the stages itself and writes progress through
update_task_status after each batch: the optimization stage writes
`((batch_idx + 1) / (total_batches + 1)) * 50`, the generation stage
`50 + ((batch_idx + 1) / total_batches) * 25`, the verification stage
`75 + ((batch_idx + 1) / total_batches) * 20`, the cleaning stage writes 95
at its start, and complete_task writes 100.  In the functions below `k`
stands for `batch_idx + 1`, the number of batches completed in the stage, and
`totalBatches` for that stage's batch count. -/

/-- Progress stored after the optimization stage completes `k` of its
`totalBatches` batches (tasks.py line 151). -/
def optimizeStageProgress (totalBatches k : ℕ) : ℚ :=
  ((k : ℚ) / ((totalBatches : ℚ) + 1)) * 50

/-- Progress stored after the generation stage completes `k` of its
`totalBatches` batches (tasks.py line 190). -/
def generateStageProgress (totalBatches k : ℕ) : ℚ :=
  50 + ((k : ℚ) / (totalBatches : ℚ)) * 25

/-- Progress stored after the verification stage completes `k` of its
`totalBatches` batches (tasks.py line 230). -/
def verifyStageProgress (totalBatches k : ℕ) : ℚ :=
  75 + ((k : ℚ) / (totalBatches : ℚ)) * 20

/-- Progress written when the cleaning stage starts (tasks.py line 245). -/
def cleaningStageProgress : ℚ := 95

/-- Progress written by complete_task at the end of the task. -/
def completionProgress : ℚ := 100

/-- The five pipeline stages, in order. -/
inductive Stage where
  | diagnose
  | optimize
  | generate
  | verify
  | redact
  deriving DecidableEq, Repr

/-- Modelled from the spec: the fixed stage weights (3, 47, 25, 20, 5). -/
def specWeight : Stage → ℚ
  | .diagnose => 3
  | .optimize => 47
  | .generate => 25
  | .verify => 20
  | .redact => 5

/-- Modelled from the spec: `offset(S)`, the sum of the weights of the stages
preceding `S`. -/
def specOffset : Stage → ℚ
  | .diagnose => 0
  | .optimize => 3
  | .generate => 50
  | .verify => 75
  | .redact => 95

/-- Modelled from the spec: `progress = offset(S) + weight(S) · k / K_S` when
stage `S` has completed `k` of its `K_S` batches. -/
def specProgress (s : Stage) (totalBatches k : ℕ) : ℚ :=
  specOffset s + specWeight s * (k : ℚ) / (totalBatches : ℚ)

/-! ## Synchronous optimization endpoint (app.py / api.py optimize_dataset_sync) -/

/-- Outcome of the synchronous pipeline run, as returned to the client; the
payload beyond the dataset is opaque to the claims. -/
structure PipelineOutput where
  optimizedDataset : List Record
  deriving DecidableEq, Repr

/-- HTTP response of the synchronous endpoint. -/
inductive SyncResponse where
  | ok (result : PipelineOutput)
  | serverError (detail : String)
  deriving DecidableEq, Repr

/-- HTTP status code of a synchronous response. -/
def syncStatusCode : SyncResponse → ℕ
  | .ok _ => 200
  | .serverError _ => 500

/-- optimize_dataset_sync: run the workflow over the request dataset inside a
try/except; a success returns the full result (status 200) and an exception
returns a 500.  The handler performs no validation of the dataset size. -/
def optimizeDatasetSync (run : List Record → Except String PipelineOutput)
    (dataset : List Record) : SyncResponse :=
  match run dataset with
  | .ok result => .ok result
  | .error e => .serverError e

/-- Actual progress rule of the optimization stage in
optimize_dataset_async: weight 50 starting from offset 0, with the stage
fraction computed as k / (K + 1). -/
def optimizeRuleActual (totalBatches k : ℕ) : ℚ :=
  50 * (k : ℚ) / ((totalBatches : ℚ) + 1)

/-! ## Theorems -/

/-- C1 counterexample: with a single optimization batch, completing it stores
progress 25, while the claimed rule offset(optimize) + weight(optimize)·k/K
gives 50, off by far more than 0.5. -/
theorem c1_progress_weights_counterexample :
    optimizeStageProgress 1 1 = 25 ∧
    specProgress Stage.optimize 1 1 = 50 ∧
    ¬ |optimizeStageProgress 1 1 - (specOffset Stage.optimize + specWeight Stage.optimize)| ≤ 1/2 := by
  refine ⟨by norm_num [optimizeStageProgress], by norm_num [specProgress, specOffset, specWeight], ?_⟩
  norm_num [optimizeStageProgress, specOffset, specWeight]

/-- C1 amended: the generation and verification stages follow the spec rule
with offsets 50 and 75 and weights 25 and 20, finishing at exactly 75 and 95
(the offsets of verify and redact), the cleaning write is 95 and completion
writes 100; but the optimization stage stores 50·k/(K+1) — weight 50 from
offset 0 over K+1 — instead of 3 + 47·k/K, and the diagnostic stage writes no
progress. -/
theorem c1_progress_weights_amended (K k : ℕ) (hK : K ≠ 0) :
    optimizeStageProgress K k = optimizeRuleActual K k ∧
    generateStageProgress K k = specProgress Stage.generate K k ∧
    verifyStageProgress K k = specProgress Stage.verify K k ∧
    generateStageProgress K K = specOffset Stage.verify ∧
    verifyStageProgress K K = specOffset Stage.redact ∧
    cleaningStageProgress = specOffset Stage.redact ∧
    completionProgress = 100 := by
  have hKQ : (K : ℚ) ≠ 0 := Nat.cast_ne_zero.mpr hK
  refine ⟨?_, ?_, ?_, ?_, ?_, ?_, ?_⟩
  · unfold optimizeStageProgress optimizeRuleActual; ring
  · unfold generateStageProgress specProgress specOffset specWeight; ring
  · unfold verifyStageProgress specProgress specOffset specWeight; ring
  · unfold generateStageProgress specOffset
    rw [div_self hKQ]; norm_num
  · unfold verifyStageProgress specOffset
    rw [div_self hKQ]; norm_num
  · rfl
  · rfl

/-- C1 amended, witnessed at two generation/verification batches. -/
theorem c1_progress_weights_witness :
    (2 : ℕ) ≠ 0 ∧
    (optimizeStageProgress 2 1 = optimizeRuleActual 2 1 ∧
     generateStageProgress 2 1 = specProgress Stage.generate 2 1 ∧
     verifyStageProgress 2 1 = specProgress Stage.verify 2 1 ∧
     generateStageProgress 2 2 = specOffset Stage.verify ∧
     verifyStageProgress 2 2 = specOffset Stage.redact ∧
     cleaningStageProgress = specOffset Stage.redact ∧
     completionProgress = 100) :=
  ⟨by decide, c1_progress_weights_amended 2 1 (by decide)⟩

/-- C3 counterexample: a sparse cluster of size 45 with a model offering ten
records contributes only max(5, 50 − 45) = 5 of them, not the claimed
max(10, 50 − 45) = 10. -/
theorem c3_generation_target_counterexample :
    (generateSamples (fun _ => .ok "r")
      (fun _ => some (List.replicate 10 ([] : Record)))
      [{ clusterId := 0, size := 45, sampleQuestions := [] }] .auto none).count = 5 ∧
    max 10 (50 - 45) = 10 ∧
    (generateSamples (fun _ => .ok "r")
      (fun _ => some (List.replicate 10 ([] : Record)))
      [{ clusterId := 0, size := 45, sampleQuestions := [] }] .auto none).count ≠
      max 10 (50 - 45) := by
  refine ⟨by rfl, by decide, by decide⟩

/-- C3 amended: for a sparse cluster without its own generation target the
auto path requests exactly max(5, 50 − cluster.size) records — the external
model is consulted at precisely that prompt — and accepts at most that many
from the parsed response, the overflow being discarded. -/
theorem c3_generation_target_amended (chat : Chat) (parseArr : ParseArr)
    (cl : Cluster) (guidance : Option Record) :
    generateSamples chat parseArr [cl] .auto guidance =
      (match chat (.generateSimilar cl.sampleQuestions (max 5 (50 - cl.size))) with
       | .error _ => { samples := [], count := 0 }
       | .ok resp =>
         { samples := (((parseArr resp).getD []).take (max 5 (50 - cl.size))).map
             (fun s => dictSet s "_generated" (.bool true))
           count := (((parseArr resp).getD []).take (max 5 (50 - cl.size))).length }) ∧
    (generateSamples chat parseArr [cl] .auto guidance).samples.length ≤
      max 5 (50 - cl.size) := by
  have hmain : ∀ resp samples,
      chat (.generateSimilar cl.sampleQuestions (max 5 (50 - cl.size))) = .ok resp →
      parseArr resp = some samples →
      (generateSamples chat parseArr [cl] .auto guidance).samples =
        (samples.take (max 5 (50 - cl.size))).map
          (fun s => dictSet s "_generated" (.bool true)) := by
    intro resp samples hc hp
    simp [generateSamples, generateSimilarSamples, hc, hp]
  constructor
  · cases hc : chat (.generateSimilar cl.sampleQuestions (max 5 (50 - cl.size))) with
    | error e => simp [generateSamples, generateSimilarSamples, hc, GenerateResult.mk.injEq]
    | ok resp =>
      cases hp : parseArr resp with
      | none => simp [generateSamples, generateSimilarSamples, hc, hp]
      | some samples =>
        have h := hmain resp samples hc hp
        simp [generateSamples, generateSimilarSamples, hc, hp, GenerateResult.mk.injEq]
  · cases hc : chat (.generateSimilar cl.sampleQuestions (max 5 (50 - cl.size))) with
    | error e => simp [generateSamples, generateSimilarSamples, hc]
    | ok resp =>
      cases hp : parseArr resp with
      | none => simp [generateSamples, generateSimilarSamples, hc, hp]
      | some samples =>
        rw [hmain resp samples hc hp, List.length_map]
        exact List.length_take_le _ _

/-- C4: when the think-field scan over the first min(10, n) records reports
false, optimize_samples returns the whole dataset unchanged with an optimized
count of 0 and every record kept; the result does not depend on the model or
parser oracles, so no external-model call is observable. -/
theorem c4_no_think_field_skips_optimization
    (chat : Chat) (parse : Parse) (dataset : List Record)
    (lowQuality : List LQItem) (mode : Mode) (guidance : Option Record)
    (h : checkHasThinkField dataset = false) :
    optimizeSamples chat parse dataset lowQuality mode guidance =
      { samples := dataset, count := 0, highQualityKept := dataset.length } := by
  simp [optimizeSamples, h]

/-- C4 witnessed on a two-record dataset without any think key. -/
theorem c4_no_think_field_witness :
    checkHasThinkField
      [[("question", JVal.str "q1"), ("answer", JVal.str "a1")],
       [("question", JVal.str "q2"), ("answer", JVal.str "a2")]] = false ∧
    optimizeSamples (fun _ => .error "unavailable") (fun _ => none)
      [[("question", JVal.str "q1"), ("answer", JVal.str "a1")],
       [("question", JVal.str "q2"), ("answer", JVal.str "a2")]]
      [{ index := 0, sample := [("question", JVal.str "q1"), ("answer", JVal.str "a1")],
         issue := "short_answer" }] .auto none =
      { samples := [[("question", JVal.str "q1"), ("answer", JVal.str "a1")],
                    [("question", JVal.str "q2"), ("answer", JVal.str "a2")]],
        count := 0, highQualityKept := 2 } :=
  ⟨by decide, c4_no_think_field_skips_optimization _ _ _ _ _ _ (by decide)⟩

/-- C5 counterexample: a low-quality record whose model response fails to
parse is forwarded with the raw response leaked into its reasoning field and
marked `_optimized = true`, not kept unchanged. -/
theorem c5_parse_failure_counterexample :
    (optimizeSamples (fun _ => .ok "garbage") (fun _ => none)
      [[("think", JVal.str "t"), ("question", JVal.str "q"), ("answer", JVal.str "a")]]
      [{ index := 0,
         sample := [("think", JVal.str "t"), ("question", JVal.str "q"), ("answer", JVal.str "a")],
         issue := "missing_cot" }] .auto none).samples =
      [[("think", JVal.str "t"), ("question", JVal.str "q"), ("answer", JVal.str "a"),
        ("reasoning", JVal.str "garbage"), ("_optimized", JVal.bool true)]] ∧
    (optimizeSamples (fun _ => .ok "garbage") (fun _ => none)
      [[("think", JVal.str "t"), ("question", JVal.str "q"), ("answer", JVal.str "a")]]
      [{ index := 0,
         sample := [("think", JVal.str "t"), ("question", JVal.str "q"), ("answer", JVal.str "a")],
         issue := "missing_cot" }] .auto none).samples ≠
      [[("think", JVal.str "t"), ("question", JVal.str "q"), ("answer", JVal.str "a")]] := by
  refine ⟨by decide, by decide⟩

/-- C5 amended: in the auto path, a low-quality record whose model response
fails to parse as JSON is forwarded with its original fields plus the raw
model response stored under "reasoning" and the marker `_optimized = true`,
and it still counts as an optimization success; the record passes through
fully unchanged only when the model call itself raises. -/
theorem c5_parse_failure_amended (chat : Chat) (parse : Parse)
    (dataset : List Record) (item : LQItem) (resp : String)
    (hthink : checkHasThinkField dataset = true)
    (hchat : chat (.addCot (dictGet2D item.sample "question" "instruction" (.str ""))
        (dictGet2D item.sample "answer" "output" (.str ""))) = .ok resp)
    (hparse : parse resp = none) :
    (optimizeSamples chat parse dataset [item] .auto none).samples =
      keptRecords dataset [item] ++
        [dictSet (dictSet item.sample "reasoning" (.str resp)) "_optimized" (.bool true)] ∧
    (optimizeSamples chat parse dataset [item] .auto none).count = 1 := by
  constructor <;>
    simp [optimizeSamples, hthink, addCotReasoning, hchat, hparse]

/-- C5 amended, witnessed on a one-record dataset with an unparseable model
response. -/
theorem c5_parse_failure_witness :
    (optimizeSamples (fun _ => .ok "oops") (fun _ => none)
      [[("think", JVal.str "t")]]
      [{ index := 0, sample := [("think", JVal.str "t")], issue := "missing_cot" }]
      .auto none).samples =
      keptRecords [[("think", JVal.str "t")]]
          [{ index := 0, sample := [("think", JVal.str "t")], issue := "missing_cot" }] ++
        [dictSet (dictSet [("think", JVal.str "t")] "reasoning" (.str "oops"))
          "_optimized" (.bool true)] ∧
    (optimizeSamples (fun _ => .ok "oops") (fun _ => none)
      [[("think", JVal.str "t")]]
      [{ index := 0, sample := [("think", JVal.str "t")], issue := "missing_cot" }]
      .auto none).count = 1 :=
  c5_parse_failure_amended _ _ _ _ "oops" (by decide) (by rfl) (by rfl)

/-- C2: the verification decision rule.  With documents retrieved and a
parsed verdict carrying a boolean is_correct and numeric confidence: the
record passes exactly when is_correct holds and confidence is at least the
threshold (the default threshold is 0.8, so confidence exactly 0.8 passes);
failing that, an offered correction with self-correction enabled yields the
corrected record marked `_corrected = true`, and otherwise the record is
rejected.  An empty retrieval passes the record unchanged, and the batch
forwards exactly passed + corrected, excluding rejected records. -/
theorem c2_verification_decision_rule
    (search : Search) (chat : Chat) (parse : Parse) (cfg : VerifyConfig)
    (sample : Record) (resp : String) (verdict : Record) (b : Bool) (c : ℚ)
    (hdocs : (search (dictGet2D sample "question" "instruction" (.str "")) cfg.topK).isEmpty = false)
    (hchat : chat (.verify (search (dictGet2D sample "question" "instruction" (.str "")) cfg.topK)
        (dictGet2D sample "question" "instruction" (.str ""))
        (dictGetD sample "reasoning" (.str ""))
        (dictGet2D sample "answer" "output" (.str ""))) = .ok resp)
    (hparse : parse resp = some verdict)
    (hic : dictLookup verdict "is_correct" = some (.bool b))
    (hc : dictLookup verdict "confidence" = some (.num c)) :
    (verifySingle search chat parse cfg sample = .ok .passed ↔
      (b = true ∧ cfg.confidenceThreshold ≤ c)) ∧
    (¬ (b = true ∧ cfg.confidenceThreshold ≤ c) →
      ((cfg.enableSelfCorrection = true ∧
          truthyOpt (dictLookup verdict "corrected_answer") = true) →
        verifySingle search chat parse cfg sample = .ok (.corrected
          (dictSet (dictSet (dictSet sample
            "answer" (dictGetD verdict "corrected_answer"
              (dictGet2D sample "answer" "output" (.str ""))))
            "reasoning" (dictGetD verdict "corrected_reasoning"
              (dictGetD sample "reasoning" (.str ""))))
            "_corrected" (.bool true)))) ∧
      (¬ (cfg.enableSelfCorrection = true ∧
          truthyOpt (dictLookup verdict "corrected_answer") = true) →
        verifySingle search chat parse cfg sample = .ok .rejected ∧
        (verifyBatch search chat parse cfg [sample]).verifiedSamples = [])) ∧
    ((b = true ∧ cfg.confidenceThreshold ≤ c) →
      (verifyBatch search chat parse cfg [sample]).verifiedSamples = [sample]) ∧
    (∀ s₂, search (dictGet2D s₂ "question" "instruction" (.str "")) cfg.topK = [] →
      verifySingle search chat parse cfg s₂ = .ok .passed ∧
      (verifyBatch search chat parse cfg [s₂]).verifiedSamples = [s₂]) ∧
    (∀ samples, (verifyBatch search chat parse cfg samples).verifiedSamples =
      (verifyBatch search chat parse cfg samples).passed ++
        (verifyBatch search chat parse cfg samples).corrected) ∧
    defaultVerifyConfig.confidenceThreshold = 8/10 := by
  have hcond : ¬ ((search (dictGet2D sample "question" "instruction" (.str ""))
      cfg.topK).isEmpty = true) := by simp [hdocs]
  have hsingle : verifySingle search chat parse cfg sample =
      .ok (if b = true ∧ cfg.confidenceThreshold ≤ c then .passed
           else if cfg.enableSelfCorrection = true ∧
              truthyOpt (dictLookup verdict "corrected_answer") = true then
             .corrected (dictSet (dictSet (dictSet sample
               "answer" (dictGetD verdict "corrected_answer"
                 (dictGet2D sample "answer" "output" (.str ""))))
               "reasoning" (dictGetD verdict "corrected_reasoning"
                 (dictGetD sample "reasoning" (.str ""))))
               "_corrected" (.bool true))
           else .rejected) := by
    simp only [verifySingle]
    rw [if_neg hcond, hchat]
    simp only [hparse, dictGetD, hic, hc, Option.getD_some, truthy, numericValue]
    by_cases hb : b = true
    · by_cases hthr : cfg.confidenceThreshold ≤ c
      · simp [hb, hthr]
      · simp [hb, hthr]
    · simp [hb]
  refine ⟨?_, ?_, ?_, ?_, ?_, rfl⟩
  · rw [hsingle]
    by_cases hpass : b = true ∧ cfg.confidenceThreshold ≤ c
    · simp [hpass]
    · rw [if_neg hpass]
      simp only [Except.ok.injEq]
      constructor
      · intro h
        exfalso
        by_cases hcorr : cfg.enableSelfCorrection = true ∧
            truthyOpt (dictLookup verdict "corrected_answer") = true
        · rw [if_pos hcorr] at h
          exact VerifyOutcome.noConfusion h
        · rw [if_neg hcorr] at h
          exact VerifyOutcome.noConfusion h
      · intro h
        exact absurd h hpass
  · intro hpass
    constructor
    · intro hcorr
      rw [hsingle, if_neg hpass, if_pos hcorr]
    · intro hcorr
      have hrej : verifySingle search chat parse cfg sample = .ok .rejected := by
        rw [hsingle, if_neg hpass, if_neg hcorr]
      exact ⟨hrej, by simp [verifyBatch, verifyPartition, hrej]⟩
  · intro hpass
    have hp : verifySingle search chat parse cfg sample = .ok .passed := by
      rw [hsingle, if_pos hpass]
    simp [verifyBatch, verifyPartition, hp]
  · intro s₂ hempty
    have hp : verifySingle search chat parse cfg s₂ = .ok .passed := by
      simp only [verifySingle]
      rw [hempty]
      simp
    exact ⟨hp, by simp [verifyBatch, verifyPartition, hp]⟩
  · intro samples
    simp [verifyBatch]

/-- C2 witnessed at the boundary: documents retrieved, the verdict reporting
is_correct with confidence exactly 0.8 against the default threshold 0.8, is
passed. -/
theorem c2_verification_decision_witness :
    verifySingle (fun _ _ => ["doc"]) (fun _ => .ok "resp")
      (fun _ => some [("is_correct", JVal.bool true), ("confidence", JVal.num (8/10))])
      defaultVerifyConfig [("question", JVal.str "q")] = .ok .passed :=
  ((c2_verification_decision_rule (fun _ _ => ["doc"]) (fun _ => .ok "resp")
      (fun _ => some [("is_correct", JVal.bool true), ("confidence", JVal.num (8/10))])
      defaultVerifyConfig [("question", JVal.str "q")] "resp"
      [("is_correct", JVal.bool true), ("confidence", JVal.num (8/10))] true (8/10)
      rfl rfl rfl rfl rfl).1).mpr
    ⟨rfl, by norm_num [defaultVerifyConfig]⟩

/-- C10: with documents retrieved, a model response that fails to parse as
JSON makes the record pass by default and be retained unchanged in the
forwarded output, while an exception raised by the model call itself (outside
JSON parsing) makes the batch reject and exclude the record. -/
theorem c10_parse_failure_passes
    (search : Search) (chat : Chat) (parse : Parse) (cfg : VerifyConfig)
    (sample : Record) (resp e : String)
    (hdocs : (search (dictGet2D sample "question" "instruction" (.str "")) cfg.topK).isEmpty = false) :
    (chat (.verify (search (dictGet2D sample "question" "instruction" (.str "")) cfg.topK)
        (dictGet2D sample "question" "instruction" (.str ""))
        (dictGetD sample "reasoning" (.str ""))
        (dictGet2D sample "answer" "output" (.str ""))) = .ok resp →
      parse resp = none →
      verifySingle search chat parse cfg sample = .ok .passed ∧
      (verifyBatch search chat parse cfg [sample]).verifiedSamples = [sample] ∧
      (verifyBatch search chat parse cfg [sample]).rejected = []) ∧
    (chat (.verify (search (dictGet2D sample "question" "instruction" (.str "")) cfg.topK)
        (dictGet2D sample "question" "instruction" (.str ""))
        (dictGetD sample "reasoning" (.str ""))
        (dictGet2D sample "answer" "output" (.str ""))) = .error e →
      verifySingle search chat parse cfg sample = .error e ∧
      (verifyBatch search chat parse cfg [sample]).verifiedSamples = [] ∧
      (verifyBatch search chat parse cfg [sample]).rejected = [sample]) := by
  have hcond : ¬ ((search (dictGet2D sample "question" "instruction" (.str ""))
      cfg.topK).isEmpty = true) := by simp [hdocs]
  constructor
  · intro hchat hparse
    have hp : verifySingle search chat parse cfg sample = .ok .passed := by
      simp only [verifySingle]
      rw [if_neg hcond, hchat]
      simp [hparse]
    refine ⟨hp, ?_, ?_⟩ <;> simp [verifyBatch, verifyPartition, hp]
  · intro hchat
    have hp : verifySingle search chat parse cfg sample = .error e := by
      simp only [verifySingle]
      rw [if_neg hcond, hchat]
    refine ⟨hp, ?_, ?_⟩ <;> simp [verifyBatch, verifyPartition, hp]

/-- C10 witnessed with a one-document corpus: an unparseable verification
response retains the record; a raising model call rejects it. -/
theorem c10_parse_failure_witness :
    ((verifyBatch (fun _ _ => ["doc"]) (fun _ => .ok "not json") (fun _ => none)
        defaultVerifyConfig [[("question", JVal.str "q")]]).verifiedSamples =
      [[("question", JVal.str "q")]]) ∧
    ((verifyBatch (fun _ _ => ["doc"]) (fun _ => .error "boom") (fun _ => none)
        defaultVerifyConfig [[("question", JVal.str "q")]]).rejected =
      [[("question", JVal.str "q")]]) :=
  ⟨((c10_parse_failure_passes (fun _ _ => ["doc"]) (fun _ => .ok "not json")
      (fun _ => none) defaultVerifyConfig [[("question", JVal.str "q")]].head!
      "not json" "boom" (by decide)).1 rfl rfl).2.1,
   ((c10_parse_failure_passes (fun _ _ => ["doc"]) (fun _ => .error "boom")
      (fun _ => none) defaultVerifyConfig [[("question", JVal.str "q")]].head!
      "not json" "boom" (by decide)).2 rfl).2.2⟩

/-- Absence of a key in a record, elementwise. -/
theorem dictLookup_eq_none_iff (r : Record) (k : String) :
    dictLookup r k = none ↔ ∀ p ∈ r, p.1 ≠ k := by
  simp [dictLookup, List.find?_eq_none]

/-- Rounding the exact value 100 to two decimal places gives 100. -/
theorem round2_hundred : round2 100 = 100 := by
  have harg : (100 : ℚ) * 100 = ((10000 : ℤ) : ℚ) := by norm_num
  have hfl : ⌊((10000 : ℤ) : ℚ)⌋ = 10000 := Int.floor_intCast 10000
  rw [round2, harg, roundHalfEven]
  rw [hfl]
  norm_num

/-- C6 counterexample: a record on which a redaction occurred is forwarded
with the redacted text but carries no `_pii_cleaned` marker. -/
theorem c6_redaction_marker_counterexample :
    (cleanDataset true (fun t => if t = "abc" then ("[REDACTED]", true) else (t, false))
      [[("question", JVal.str "abc")]]).cleanedCount = 1 ∧
    (cleanDataset true (fun t => if t = "abc" then ("[REDACTED]", true) else (t, false))
      [[("question", JVal.str "abc")]]).cleanedDataset =
      [[("question", JVal.str "[REDACTED]")]] ∧
    dictLookup [("question", JVal.str "[REDACTED]")] "_pii_cleaned" = none := by
  refine ⟨by decide, by decide, by decide⟩

/-- C6 amended: the cleaning stage passes every record through the redactor —
the output has one record per input record and each output record has exactly
its input's keys, so no `_pii_cleaned` marker is ever added — counting the
redacted records in cleaned_count; a record none of whose fields report a
redaction is returned unchanged (given a redactor that returns text unchanged
when it reports no redaction). -/
theorem c6_redaction_no_marker (redact : Redact) (dataset : List Record)
    (hredact : ∀ t, (redact t).2 = false → (redact t).1 = t) :
    (cleanDataset true redact dataset).cleanedDataset =
      dataset.map (fun s => (cleanSample redact s).1) ∧
    (cleanDataset true redact dataset).cleanedCount =
      (dataset.filter (fun s => (cleanSample redact s).2)).length ∧
    (∀ s : Record, ((cleanSample redact s).1).map Prod.fst = s.map Prod.fst) ∧
    (∀ s : Record, dictLookup s "_pii_cleaned" = none →
      dictLookup (cleanSample redact s).1 "_pii_cleaned" = none) ∧
    (∀ s : Record, (cleanSample redact s).2 = false → (cleanSample redact s).1 = s) := by
  have hkeys : ∀ s : Record, ((cleanSample redact s).1).map Prod.fst = s.map Prod.fst := by
    intro s
    show (s.map _).map Prod.fst = s.map Prod.fst
    rw [List.map_map]
    apply List.map_congr_left
    intro a _
    cases a with
    | mk k v => cases v <;> rfl
  refine ⟨rfl, rfl, hkeys, ?_, ?_⟩
  · intro s hnone
    rw [dictLookup_eq_none_iff] at hnone ⊢
    intro p hp
    have hmem : p.1 ∈ ((cleanSample redact s).1).map Prod.fst :=
      List.mem_map_of_mem _ hp
    rw [hkeys s] at hmem
    obtain ⟨q, hq, hq1⟩ := List.mem_map.mp hmem
    exact hq1 ▸ hnone q hq
  · intro s hflag
    have hall : ∀ p ∈ s,
        (match p.2 with | JVal.str t => (redact t).2 | _ => false) = false := by
      intro p hp
      by_contra hne
      have : s.any (fun p =>
          match p.2 with | JVal.str t => (redact t).2 | _ => false) = true :=
        List.any_eq_true.mpr ⟨p, hp, by simpa using hne⟩
      rw [show s.any (fun p =>
          match p.2 with | JVal.str t => (redact t).2 | _ => false) =
          (cleanSample redact s).2 from rfl, hflag] at this
      exact Bool.false_ne_true this
    show s.map _ = s
    have : s.map (fun p : String × JVal =>
        match p.2 with
        | JVal.str t => (p.1, JVal.str (redact t).1)
        | v => (p.1, v)) = s.map id := by
      apply List.map_congr_left
      intro a ha
      have := hall a ha
      cases a with
      | mk k v =>
        cases v with
        | str t =>
          have ht : (redact t).2 = false := by simpa using this
          simp [hredact t ht]
        | bool b => rfl
        | num q => rfl
        | null => rfl
    rw [this, List.map_id]

/-- C6 amended, witnessed with a redactor that redacts "abc": the unredacted
record is unchanged and the redacted one keeps its key set. -/
theorem c6_redaction_no_marker_witness :
    (cleanDataset true (fun t => if t = "abc" then ("[REDACTED]", true) else (t, false))
      [[("question", JVal.str "q")]]).cleanedDataset =
      [[("question", JVal.str "q")]].map
        (fun s => (cleanSample (fun t => if t = "abc" then ("[REDACTED]", true) else (t, false)) s).1) ∧
    (cleanSample (fun t => if t = "abc" then ("[REDACTED]", true) else (t, false))
      [("question", JVal.str "q")]).1 = [("question", JVal.str "q")] :=
  ⟨(c6_redaction_no_marker (fun t => if t = "abc" then ("[REDACTED]", true) else (t, false))
      [[("question", JVal.str "q")]] (fun t ht => by
        by_cases h : t = "abc" <;> simp [h] at ht ⊢)).1,
   (c6_redaction_no_marker (fun t => if t = "abc" then ("[REDACTED]", true) else (t, false))
      [[("question", JVal.str "q")]] (fun t ht => by
        by_cases h : t = "abc" <;> simp [h] at ht ⊢)).2.2.2.2
     [("question", JVal.str "q")] (by decide)⟩

/-- C7 counterexample: create_task on an already-present task_id does not
fail and does not leave the existing record unchanged — the stored
dataset_size silently changes from 5 to 7. -/
theorem c7_create_task_counterexample :
    ((createTask (createTask (fun _ => none) "t" 5 Mode.auto 50).1 "t" 7 Mode.auto 50).1 "t" ≠
      (createTask (fun _ => none) "t" 5 Mode.auto 50).1 "t") ∧
    ((createTask (fun _ => none) "t" 5 Mode.auto 50).1 "t").isSome = true := by
  refine ⟨by decide, by decide⟩

/-- C7 amended: create_task never fails; it writes the fresh pending record
(progress 0, completed_batches 0, total_batches = ceil(size/batch)) under the
given task_id, replacing whatever record was stored there, and leaves every
other task untouched. -/
theorem c7_create_task_overwrites (store : Store) (taskId : String) (n : ℕ)
    (mode : Mode) (b : ℕ) (otherId : String) (h : otherId ≠ taskId) :
    (createTask store taskId n mode b).1 taskId = some
      { status := .pending, mode := mode, datasetSize := n, batchSize := b,
        totalBatches := (n + b - 1) / b, completedBatches := 0, progress := 0,
        currentBatch := 0, error := none } ∧
    (createTask store taskId n mode b).1 otherId = store otherId := by
  refine ⟨by simp [createTask], ?_⟩
  simp [createTask, h]

/-- C7 amended, witnessed on a store already holding the task. -/
theorem c7_create_task_overwrites_witness :
    (createTask (createTask (fun _ => none) "t" 5 Mode.auto 50).1 "t" 7 Mode.auto 50).1 "t" =
      some { status := .pending, mode := Mode.auto, datasetSize := 7, batchSize := 50,
             totalBatches := (7 + 50 - 1) / 50, completedBatches := 0, progress := 0,
             currentBatch := 0, error := none } ∧
    (createTask (createTask (fun _ => none) "t" 5 Mode.auto 50).1 "t" 7 Mode.auto 50).1 "u" =
      (createTask (fun _ => none) "t" 5 Mode.auto 50).1 "u" :=
  c7_create_task_overwrites _ "t" 7 Mode.auto 50 "u" (by decide)

/-- C8 counterexample: a 101-record synchronous request is processed and
answered with status 200, not rejected with 400. -/
theorem c8_sync_size_counterexample :
    (List.replicate 101 ([] : Record)).length > 100 ∧
    syncStatusCode (optimizeDatasetSync (fun d => .ok { optimizedDataset := d })
      (List.replicate 101 ([] : Record))) = 200 ∧
    syncStatusCode (optimizeDatasetSync (fun d => .ok { optimizedDataset := d })
      (List.replicate 101 ([] : Record))) ≠ 400 := by
  refine ⟨by simp, rfl, by decide⟩

/-- C8 amended: the synchronous endpoint performs no dataset-size check: it
runs the pipeline on every request regardless of size, returning the full
result with status 200 when the run succeeds and 500 when it raises; no
request is answered with 400. -/
theorem c8_sync_no_size_check (run : List Record → Except String PipelineOutput)
    (dataset : List Record) (r : PipelineOutput) (h : run dataset = .ok r) :
    optimizeDatasetSync run dataset = .ok r ∧
    syncStatusCode (optimizeDatasetSync run dataset) = 200 ∧
    (∀ run₂ d₂, syncStatusCode (optimizeDatasetSync run₂ d₂) ≠ 400) := by
  refine ⟨by simp [optimizeDatasetSync, h],
    by simp [optimizeDatasetSync, h, syncStatusCode], ?_⟩
  intro run₂ d₂
  unfold optimizeDatasetSync
  cases run₂ d₂ <;> simp [syncStatusCode]

/-- C8 amended, witnessed on a 101-record request with a pipeline that echoes
its input. -/
theorem c8_sync_no_size_check_witness :
    optimizeDatasetSync (fun d => .ok { optimizedDataset := d })
      (List.replicate 101 ([] : Record)) =
      .ok { optimizedDataset := List.replicate 101 ([] : Record) } ∧
    syncStatusCode (optimizeDatasetSync (fun d => .ok { optimizedDataset := d })
      (List.replicate 101 ([] : Record))) = 200 :=
  ⟨(c8_sync_no_size_check (fun d => .ok { optimizedDataset := d })
      (List.replicate 101 ([] : Record)) _ rfl).1,
   (c8_sync_no_size_check (fun d => .ok { optimizedDataset := d })
      (List.replicate 101 ([] : Record)) _ rfl).2.1⟩

/-- C9 counterexample: the invariant progress = 100 iff status = completed
fails on a reachable store — creating a one-batch task and completing its
batch through update_batch_progress stores progress 100 with the status still
processing. -/
theorem c9_progress_invariant_counterexample :
    ¬ (∀ store : Store, Reachable store → ∀ id t, store id = some t →
        0 ≤ t.progress ∧ t.progress ≤ 100 ∧
        (t.progress = 100 ↔ t.status = TaskStatus.completed)) := by
  intro hinv
  have hr : Reachable (updateBatchProgress
      (createTask (fun _ => none) "t" 10 Mode.auto 50).1 "t" 0) :=
    Reachable.batch _ _ _ (Reachable.create _ _ _ _ _ Reachable.empty)
  have hs : (updateBatchProgress
      (createTask (fun _ => none) "t" 10 Mode.auto 50).1 "t" 0) "t" =
      some { status := .processing, mode := .auto, datasetSize := 10, batchSize := 50,
             totalBatches := 1, completedBatches := 1,
             progress := round2 (((1 : ℕ) : ℚ) / ((1 : ℕ) : ℚ) * 100),
             currentBatch := 0, error := none } := rfl
  have hprog : round2 (((1 : ℕ) : ℚ) / ((1 : ℕ) : ℚ) * 100) = 100 := by
    have : (((1 : ℕ) : ℚ) / ((1 : ℕ) : ℚ) * 100) = 100 := by norm_num
    rw [this, round2_hundred]
  obtain ⟨_, _, hiff⟩ := hinv _ hr "t" _ hs
  exact TaskStatus.noConfusion (hiff.mp hprog)

/-- C9 amended: complete_task stores progress 100 together with status
completed, but update_batch_progress stores status processing with
progress = round((completed+1)/total·100, 2) regardless of position — in
particular, completing the final batch stores progress 100 while the status
is still processing, so progress 100 does not imply completion. -/
theorem c9_progress_invariant_amended (store : Store) (taskId : String)
    (batchIndex : ℕ) (t : TaskData) (h : store taskId = some t)
    (hlast : t.completedBatches + 1 = t.totalBatches) (h0 : t.totalBatches ≠ 0) :
    updateBatchProgress store taskId batchIndex taskId = some
      { t with status := .processing,
               completedBatches := t.completedBatches + 1,
               currentBatch := batchIndex,
               progress := round2 (((t.completedBatches : ℚ) + 1) /
                 (t.totalBatches : ℚ) * 100) } ∧
    (updateBatchProgress store taskId batchIndex taskId).map TaskData.progress =
      some 100 ∧
    (updateBatchProgress store taskId batchIndex taskId).map TaskData.status =
      some TaskStatus.processing ∧
    completeTask store taskId taskId = some
      { t with status := .completed, progress := 100 } := by
  have hfirst : updateBatchProgress store taskId batchIndex taskId = some
      { t with status := .processing,
               completedBatches := t.completedBatches + 1,
               currentBatch := batchIndex,
               progress := round2 (((t.completedBatches : ℚ) + 1) /
                 (t.totalBatches : ℚ) * 100) } := by
    simp [updateBatchProgress, h, updateTaskStatus, applyUpdate]
  have hcast : ((t.completedBatches : ℚ) + 1) = (t.totalBatches : ℚ) := by
    exact_mod_cast hlast
  have hprog : round2 (((t.completedBatches : ℚ) + 1) /
      (t.totalBatches : ℚ) * 100) = 100 := by
    rw [hcast, div_self (Nat.cast_ne_zero.mpr h0), one_mul, round2_hundred]
  refine ⟨hfirst, ?_, ?_, ?_⟩
  · rw [hfirst]
    simp [hprog]
  · rw [hfirst]
    rfl
  · simp [completeTask, updateTaskStatus, h, applyUpdate]

/-- C9 amended, witnessed on a freshly created one-batch task. -/
theorem c9_progress_invariant_witness :
    ((updateBatchProgress (createTask (fun _ => none) "t" 10 Mode.auto 50).1 "t" 0) "t").map
      TaskData.progress = some 100 ∧
    ((updateBatchProgress (createTask (fun _ => none) "t" 10 Mode.auto 50).1 "t" 0) "t").map
      TaskData.status = some TaskStatus.processing :=
  ⟨(c9_progress_invariant_amended _ "t" 0 _ rfl (by decide) (by decide)).2.1,
   (c9_progress_invariant_amended _ "t" 0 _ rfl (by decide) (by decide)).2.2.1⟩

end DataAnalyzer
